import Mathlib

/-!
# Verification of the MFTNB moving-estimate application

Shallow embedding of `src/app.py` (the `compute_estimate` function and the
`booking` POST handler) over exact rationals, together with proofs of the
specification's testable properties.

Numbers: the Python code computes with IEEE floats; the specification frames
all quantities as real numbers with exact decimal rounding, so the embedding
uses `ℚ`.  `round(x, n)` is Python's round-half-to-even, modelled exactly on
rationals.
-/

namespace MFTNB

/-- Python's `round` to an integer on an exact rational: round half to even. -/
def pyRoundInt (q : ℚ) : ℤ :=
  if q - ⌊q⌋ < 1/2 then ⌊q⌋
  else if (1:ℚ)/2 < q - ⌊q⌋ then ⌊q⌋ + 1
  else if ⌊q⌋ % 2 = 0 then ⌊q⌋ else ⌊q⌋ + 1

/-- Python's `round(q, n)` (round to `n` decimal places, half to even),
modelled on exact rationals. -/
def pyRound (q : ℚ) (n : ℕ) : ℚ :=
  (pyRoundInt (q * (10:ℚ)^n) : ℚ) / (10:ℚ)^n

/-- Result record of `compute_estimate` (the returned tuple
`(movers, hours, cost)`, `src/app.py` line 87). -/
structure Estimate where
  movers : ℤ
  hours : ℚ
  cost : ℚ
deriving DecidableEq, Repr

/-- Crew size from `bedrooms` (`src/app.py` lines 41-46). -/
def moversOf (bedrooms : ℤ) : ℤ :=
  if bedrooms ≤ 1 then 2
  else if bedrooms = 2 then 3
  else 4

/-- Base hours from home size (`src/app.py` lines 49-56). -/
def baseHours (bedrooms : ℤ) : ℚ :=
  if bedrooms ≤ 1 then 4
  else if bedrooms = 2 then 6
  else if bedrooms = 3 then 8
  else 10

/-- The accumulated (unrounded) hours value: base hours plus heavy-item,
travel, and stairs adjustments (`src/app.py` lines 49-65). -/
def rawHours (bedrooms stairs_origin stairs_destination heavy_items : ℤ)
    (distance_km : ℚ) : ℚ :=
  baseHours bedrooms + (1/2) * (heavy_items : ℚ) + distance_km / 50
    + (1/2) * ((stairs_origin : ℚ) + (stairs_destination : ℚ))

/-- Hourly rate from crew size (`src/app.py` lines 68-73). -/
def hourlyRate (movers : ℤ) : ℚ :=
  if movers = 2 then 140
  else if movers = 3 then 160
  else 180

/-- Hourly rate after the peak-season adjustment
(`hourly_rate *= 1.2`, `src/app.py` lines 76-77). -/
def peakRate (movers : ℤ) (peak_season : Bool) : ℚ :=
  if peak_season then hourlyRate movers * (12/10) else hourlyRate movers

/-- Fuel surcharge term (`src/app.py` lines 82-85): flat 40 for
`distance_km ≤ 100`, else `distance_km * 0.72`. -/
def fuelSurcharge (distance_km : ℚ) : ℚ :=
  if distance_km ≤ 100 then 40 else distance_km * (72/100)

/-- The unrounded cost: `hours * hourly_rate` plus the fuel surcharge
(`src/app.py` lines 79-85), before the final `round(cost, 2)`. -/
def rawCost (bedrooms stairs_origin stairs_destination heavy_items : ℤ)
    (distance_km : ℚ) (peak_season : Bool) : ℚ :=
  rawHours bedrooms stairs_origin stairs_destination heavy_items distance_km
      * peakRate (moversOf bedrooms) peak_season
    + fuelSurcharge distance_km

/-- `compute_estimate` (`src/app.py` lines 16-87).  Integer inputs are `ℤ`
(Python `int`), the distance is `ℚ` (Python `float`, modelled exactly).
Rounding of hours (1 decimal) and cost (2 decimals) happens only at the
return, on the unrounded accumulated values. -/
def compute_estimate (bedrooms stairs_origin stairs_destination heavy_items : ℤ)
    (distance_km : ℚ) (peak_season : Bool := false) : Estimate :=
  { movers := moversOf bedrooms
    hours := pyRound (rawHours bedrooms stairs_origin stairs_destination
      heavy_items distance_km) 1
    cost := pyRound (rawCost bedrooms stairs_origin stairs_destination
      heavy_items distance_km peak_season) 2 }

/-! ## Embedding of the booking POST handler (`src/app.py` lines 198-256) -/

/-- Value of a string of ASCII digits, base 10. -/
def digitsToNat (cs : List Char) : ℕ :=
  cs.foldl (fun acc c => acc * 10 + (c.toNat - 48)) 0

/-- A nonempty all-digit character list, as `some` of its value. -/
def numField (cs : List Char) : Option ℕ :=
  if (!cs.isEmpty) && cs.all Char.isDigit then some (digitsToNat cs) else none

/-- Surrounding-whitespace strip, as Python `int`/`float` apply to their
string argument. -/
def stripEnds (cs : List Char) : List Char :=
  ((cs.dropWhile Char.isWhitespace).reverse.dropWhile Char.isWhitespace).reverse

/-- Modelled Python `int(s)` on decimal strings (`src/app.py` lines 218-221):
optional surrounding whitespace, an optional sign, then one or more digits,
else `ValueError` (`none`).  (Python additionally accepts underscore digit
grouping, on which no claim depends.) -/
def pyInt (s : String) : Option ℤ :=
  match stripEnds s.toList with
  | '+' :: rest => (numField rest).map fun n => (n : ℤ)
  | '-' :: rest => (numField rest).map fun n => -(n : ℤ)
  | rest => (numField rest).map fun n => (n : ℤ)

/-- Pieces of a parsed float literal: signed integer mantissa, number of
fractional digits, signed decimal exponent.  The denoted value is
`mantissa / 10^fracLen * 10^exp`. -/
def pyFloatParts (s : String) : Option (ℤ × ℕ × ℤ) :=
  let cs := stripEnds s.toList
  let sgn : ℤ := match cs with | '-' :: _ => -1 | _ => 1
  let cs1 : List Char := match cs with
    | '+' :: r => r
    | '-' :: r => r
    | r => r
  let intPart := cs1.takeWhile Char.isDigit
  let cs2 := cs1.dropWhile Char.isDigit
  let fracPart : List Char := match cs2 with
    | '.' :: r => r.takeWhile Char.isDigit
    | _ => []
  let cs3 : List Char := match cs2 with
    | '.' :: r => r.dropWhile Char.isDigit
    | r => r
  if intPart.isEmpty && fracPart.isEmpty then none
  else
    let mant : ℤ := sgn * (digitsToNat (intPart ++ fracPart) : ℤ)
    match cs3 with
    | [] => some (mant, fracPart.length, 0)
    | 'e' :: r =>
        (match r with
          | '+' :: r2 => (numField r2).map fun n => (mant, fracPart.length, (n : ℤ))
          | '-' :: r2 => (numField r2).map fun n => (mant, fracPart.length, -(n : ℤ))
          | r2 => (numField r2).map fun n => (mant, fracPart.length, (n : ℤ)))
    | 'E' :: r =>
        (match r with
          | '+' :: r2 => (numField r2).map fun n => (mant, fracPart.length, (n : ℤ))
          | '-' :: r2 => (numField r2).map fun n => (mant, fracPart.length, -(n : ℤ))
          | r2 => (numField r2).map fun n => (mant, fracPart.length, (n : ℤ)))
    | _ => none

/-- Modelled Python `float(s)` on finite decimal literals (`src/app.py` line
222): optional whitespace and sign, `digits[.digits]` or `.digits`, optional
decimal exponent.  (Python additionally accepts `inf`/`nan` and underscore
grouping, on which no claim depends.) -/
def pyFloat (s : String) : Option ℚ :=
  (pyFloatParts s).map fun pr => (pr.1 : ℚ) / (10:ℚ) ^ pr.2.1 * (10:ℚ) ^ pr.2.2

/-- A parsed calendar date. -/
structure DateYMD where
  year : ℕ
  month : ℕ
  day : ℕ
deriving DecidableEq, Repr

/-- Gregorian leap-year rule, as `datetime.date` validates days. -/
def isLeapYear (y : ℕ) : Bool :=
  (y % 4 == 0 && y % 100 != 0) || (y % 400 == 0)

/-- Number of days of month `m` in year `y`. -/
def daysInMonth (y m : ℕ) : ℕ :=
  if m = 2 then (if isLeapYear y then 29 else 28)
  else if m = 4 ∨ m = 6 ∨ m = 9 ∨ m = 11 then 30
  else 31

/-- Split a character list at every `'-'`. -/
def splitDash : List Char → List (List Char)
  | [] => [[]]
  | c :: cs =>
      if c = '-' then [] :: splitDash cs
      else match splitDash cs with
        | [] => [[c]]
        | g :: gs => (c :: g) :: gs

/-- Modelled Python `datetime.datetime.strptime(s, "%Y-%m-%d").date()`
(`src/app.py` line 231): exactly four digits of year (at least 0001), a
dash, one or two digits of month in 1..12, a dash, one or two digits of day
valid for that month and leap year, and nothing else. -/
def parse_move_date (s : String) : Option DateYMD :=
  match splitDash s.toList with
  | [ys, ms, ds] =>
    match numField ys, numField ms, numField ds with
    | some y, some m, some d =>
        if ys.length = 4 ∧ 1 ≤ y ∧ ms.length ≤ 2 ∧ 1 ≤ m ∧ m ≤ 12
            ∧ ds.length ≤ 2 ∧ 1 ≤ d ∧ d ≤ daysInMonth y m
        then some ⟨y, m, d⟩ else none
    | _, _, _ => none
  | _ => none

/-- Peak-season determination in the booking handler (`src/app.py` lines
227-236): peak iff the stored move date is nonempty, parses as `%Y-%m-%d`,
and its month is 6, 7 or 8; an empty or unparsable date means non-peak. -/
def peak_of_move_date (move_date : String) : Bool :=
  if move_date = "" then false
  else
    match parse_move_date move_date with
    | some dt => dt.month == 6 || dt.month == 7 || dt.month == 8
    | none => false

/-- The estimate record stored in `session['estimate']` (`src/app.py` lines
242-252). -/
structure EstimateRecord where
  movers : ℤ
  hours : ℚ
  cost : ℚ
  bedrooms : ℤ
  stairs_origin : ℤ
  stairs_destination : ℤ
  heavy_items : ℤ
  distance_km : ℚ
  peak_season : Bool
deriving DecidableEq, Repr

/-- The per-visitor session keys the booking flow touches. -/
structure SessionState where
  name : String
  email : String
  phone : String
  move_date : String
  origin : String
  destination : String
  notes : String
  inventory_data : Option String
  estimate : Option EstimateRecord
deriving DecidableEq, Repr

/-- A POST form for the booking route; `none` models an absent field (the
code reads each field with `request.form.get(key, default)`). -/
structure BookingForm where
  name : Option String
  email : Option String
  phone : Option String
  move_date : Option String
  origin : Option String
  destination : Option String
  notes : Option String
  bedrooms : Option String
  stairs_origin : Option String
  stairs_destination : Option String
  heavy_items : Option String
  distance_km : Option String
deriving DecidableEq, Repr

/-- Outcome of the booking POST handler: a flash message plus redirect back
to the booking form, or a redirect to the confirmation page. -/
inductive BookingResponse
  | flashRedirectBooking (message : String)
  | redirectConfirmation
deriving DecidableEq, Repr

/-- The booking POST handler (`src/app.py` lines 206-254): store the contact
fields in the session, parse the numeric fields (on failure flash a prompt
and redirect back to the booking form), derive the peak-season flag from the
stored move date, compute and store the estimate, and redirect to the
confirmation page. -/
def booking_post (sess : SessionState) (form : BookingForm) :
    SessionState × BookingResponse :=
  let sess1 : SessionState :=
    { sess with
      name := form.name.getD ""
      email := form.email.getD ""
      phone := form.phone.getD ""
      move_date := form.move_date.getD ""
      origin := form.origin.getD ""
      destination := form.destination.getD ""
      notes := form.notes.getD "" }
  match pyInt (form.bedrooms.getD "1"), pyInt (form.stairs_origin.getD "0"),
      pyInt (form.stairs_destination.getD "0"), pyInt (form.heavy_items.getD "0"),
      pyFloat (form.distance_km.getD "0") with
  | some bedrooms, some so, some sd, some hi, some dk =>
      let peak := peak_of_move_date sess1.move_date
      let e := compute_estimate bedrooms so sd hi dk peak
      ({ sess1 with
          estimate := some ⟨e.movers, e.hours, e.cost, bedrooms, so, sd, hi, dk, peak⟩ },
        BookingResponse.redirectConfirmation)
  | _, _, _, _, _ =>
      (sess1, BookingResponse.flashRedirectBooking
        "Please provide valid numbers for bedrooms, stairs, heavy items and distance.")

/-- A blank session, used to instantiate the handler theorems. -/
def sess0 : SessionState :=
  ⟨"", "", "", "", "", "", "", none, none⟩

/-- A well-formed booking submission with a July move date. -/
def goodForm : BookingForm :=
  { name := some "Ada", email := some "ada@example.com", phone := some "555",
    move_date := some "2026-07-15", origin := some "A", destination := some "B",
    notes := none, bedrooms := some "2", stairs_origin := some "0",
    stairs_destination := some "0", heavy_items := some "0",
    distance_km := some "50" }

/-- A booking submission whose bedrooms field is not numeric. -/
def badForm : BookingForm :=
  { goodForm with bedrooms := some "three" }

/-- A session left by a previous successful booking, used to show what a
failed resubmission overwrites and what it keeps. -/
def sessPrior : SessionState :=
  ⟨"Old Name", "old@example.com", "111", "2025-01-02", "X", "Y", "old notes",
    some "[]", some ⟨2, 6, 1000, 1, 0, 0, 0, 10, false⟩⟩

/-! ## Basic facts about the rounding function -/

lemma floor_le_pyRoundInt (q : ℚ) : ⌊q⌋ ≤ pyRoundInt q := by
  unfold pyRoundInt; split_ifs <;> omega

lemma pyRoundInt_le_floor_add_one (q : ℚ) : pyRoundInt q ≤ ⌊q⌋ + 1 := by
  unfold pyRoundInt; split_ifs <;> omega

lemma pyRoundInt_mono : Monotone pyRoundInt := by
  intro x y h
  have hf : ⌊x⌋ ≤ ⌊y⌋ := Int.floor_le_floor h
  rcases lt_or_eq_of_le hf with hlt | heq
  · calc pyRoundInt x ≤ ⌊x⌋ + 1 := pyRoundInt_le_floor_add_one x
      _ ≤ ⌊y⌋ := by omega
      _ ≤ pyRoundInt y := floor_le_pyRoundInt y
  · unfold pyRoundInt
    rw [← heq]
    split_ifs <;> first | omega | (exfalso; linarith)

lemma pyRound_mono {x y : ℚ} (n : ℕ) (h : x ≤ y) : pyRound x n ≤ pyRound y n := by
  unfold pyRound
  have hm : pyRoundInt (x * 10 ^ n) ≤ pyRoundInt (y * 10 ^ n) :=
    pyRoundInt_mono (mul_le_mul_of_nonneg_right h (by positivity))
  have hc : ((pyRoundInt (x * 10 ^ n) : ℚ)) ≤ (pyRoundInt (y * 10 ^ n) : ℚ) := by
    exact_mod_cast hm
  gcongr

/-! ## Monotonicity of the unrounded quantities -/

lemma hourlyRate_pos (m : ℤ) : 0 < hourlyRate m := by
  unfold hourlyRate; split_ifs <;> norm_num

lemma peakRate_pos (m : ℤ) (p : Bool) : 0 < peakRate m p := by
  have h := hourlyRate_pos m
  cases p <;> simp [peakRate] <;> linarith

lemma fuelSurcharge_mono {d d' : ℚ} (h : d ≤ d') :
    fuelSurcharge d ≤ fuelSurcharge d' := by
  unfold fuelSurcharge
  split_ifs <;> linarith

lemma rawHours_mono (b : ℤ) {so so' sd sd' hi hi' : ℤ} {d d' : ℚ}
    (hso : so ≤ so') (hsd : sd ≤ sd') (hhi : hi ≤ hi') (hd : d ≤ d') :
    rawHours b so sd hi d ≤ rawHours b so' sd' hi' d' := by
  unfold rawHours
  have h1 : (so:ℚ) ≤ so' := by exact_mod_cast hso
  have h2 : (sd:ℚ) ≤ sd' := by exact_mod_cast hsd
  have h3 : (hi:ℚ) ≤ hi' := by exact_mod_cast hhi
  linarith

lemma rawCost_mono (b : ℤ) (p : Bool) {so so' sd sd' hi hi' : ℤ} {d d' : ℚ}
    (hso : so ≤ so') (hsd : sd ≤ sd') (hhi : hi ≤ hi') (hd : d ≤ d') :
    rawCost b so sd hi d p ≤ rawCost b so' sd' hi' d' p := by
  unfold rawCost
  have hr := peakRate_pos (moversOf b) p
  have hh := rawHours_mono b hso hsd hhi hd
  have hf := fuelSurcharge_mono hd
  have hmul := mul_le_mul_of_nonneg_right hh (le_of_lt hr)
  linarith

/-! ## Claims about the estimator -/

/-- C1: for `bedrooms=3, stairsOrigin=1, stairsDestination=1, heavyItems=2,
distanceKm=150, peakSeason=true`, `compute_estimate` returns exactly
`(movers=4, hours=13.0, cost=2916.0)`. -/
theorem compute_estimate_scenario_two :
    compute_estimate 3 1 1 2 150 true = ⟨4, 13, 2916⟩ := by
  norm_num [compute_estimate, rawHours, rawCost, baseHours, moversOf, hourlyRate,
    peakRate, fuelSurcharge, pyRound, pyRoundInt]

/-- C2 (as frozen) fails on the code: with `distanceKm = 1/200`, the returned
(rounded) non-peak cost is 600.01 and the returned peak cost is 712.02, but
`((600.01 - 40) × 1.2) + 40 = 712.012 ≠ 712.02`.  The stated relation does not
hold between the two *returned* costs. -/
theorem peak_multiplier_counterexample :
    ¬ ((compute_estimate 0 0 0 0 (1/200) true).cost
        = ((compute_estimate 0 0 0 0 (1/200) false).cost - fuelSurcharge (1/200)) * (12/10)
          + fuelSurcharge (1/200)) := by
  norm_num [compute_estimate, rawHours, rawCost, baseHours, moversOf, hourlyRate,
    peakRate, fuelSurcharge, pyRound, pyRoundInt]

/-- C2 amended: the 20% multiplier relation holds at the unrounded cost: the
peak-season returned cost equals `round(((C - fuelSurcharge) × 1.2) +
fuelSurcharge, 2)` where `C` is the *unrounded* cost of the non-peak call with
identical other inputs; the surcharge applies only to the hourly-rate-derived
portion, never to the fuel surcharge. -/
theorem peak_multiplier_unrounded (b so sd hi : ℤ) (d : ℚ) :
    (compute_estimate b so sd hi d true).cost
      = pyRound ((rawCost b so sd hi d false - fuelSurcharge d) * (12/10)
          + fuelSurcharge d) 2 := by
  have h : rawCost b so sd hi d true
      = (rawCost b so sd hi d false - fuelSurcharge d) * (12/10) + fuelSurcharge d := by
    simp only [rawCost, peakRate]
    norm_num
    ring
  calc (compute_estimate b so sd hi d true).cost
      = pyRound (rawCost b so sd hi d true) 2 := rfl
    _ = _ := by rw [h]

/-- C3: the returned cost is `round(unroundedHours × hourlyRate +
fuelSurcharge, 2)` with the full-precision accumulated hours, and the returned
hours is `round(unroundedHours, 1)`; rounding happens only at the return step
and the rounded hours value never feeds the cost computation. -/
theorem cost_uses_unrounded_hours (b so sd hi : ℤ) (d : ℚ) (p : Bool) :
    (compute_estimate b so sd hi d p).cost
      = pyRound (rawHours b so sd hi d * peakRate (moversOf b) p + fuelSurcharge d) 2
    ∧ (compute_estimate b so sd hi d p).hours = pyRound (rawHours b so sd hi d) 1 :=
  ⟨rfl, rfl⟩

/-- C4: the fuel surcharge is exactly 40 whenever `distanceKm ≤ 100` (in
particular at exactly 100), and exactly `distanceKm × 0.72` whenever
`distanceKm > 100` (e.g. at 100.0001). -/
theorem fuel_surcharge_boundary (d : ℚ) :
    (d ≤ 100 → fuelSurcharge d = 40) ∧ (100 < d → fuelSurcharge d = d * (72/100)) := by
  constructor
  · intro h; unfold fuelSurcharge; rw [if_pos h]
  · intro h; unfold fuelSurcharge; rw [if_neg (not_le.mpr h)]

/-- C4 witness: the boundary values `distanceKm = 100` and
`distanceKm = 100.0001`. -/
theorem fuel_surcharge_boundary_witness :
    fuelSurcharge 100 = 40
    ∧ fuelSurcharge (1000001/10000) = (1000001/10000) * (72/100) :=
  ⟨(fuel_surcharge_boundary 100).1 (by norm_num),
   (fuel_surcharge_boundary (1000001/10000)).2 (by norm_num)⟩

/-- C5: increasing any of `heavyItems`, `distanceKm`, `stairsOrigin`,
`stairsDestination` (jointly, hence also one at a time) while holding the
other inputs fixed never decreases the returned hours or cost. -/
theorem compute_estimate_monotone (b so so' sd sd' hi hi' : ℤ) (d d' : ℚ) (p : Bool)
    (hb : 0 ≤ b) (h0so : 0 ≤ so) (h0sd : 0 ≤ sd) (h0hi : 0 ≤ hi) (h0d : 0 ≤ d)
    (hso : so ≤ so') (hsd : sd ≤ sd') (hhi : hi ≤ hi') (hd : d ≤ d') :
    (compute_estimate b so sd hi d p).hours ≤ (compute_estimate b so' sd' hi' d' p).hours
    ∧ (compute_estimate b so sd hi d p).cost ≤ (compute_estimate b so' sd' hi' d' p).cost :=
  ⟨pyRound_mono 1 (rawHours_mono b hso hsd hhi hd),
   pyRound_mono 2 (rawCost_mono b p hso hsd hhi hd)⟩

/-- C5 witness: a concrete increase of all four inputs at once. -/
theorem compute_estimate_monotone_witness :
    (compute_estimate 1 0 0 0 20 false).hours ≤ (compute_estimate 1 1 1 1 30 false).hours
    ∧ (compute_estimate 1 0 0 0 20 false).cost ≤ (compute_estimate 1 1 1 1 30 false).cost :=
  compute_estimate_monotone 1 0 1 0 1 0 1 20 30 false (by norm_num) (by norm_num)
    (by norm_num) (by norm_num) (by norm_num) (by norm_num) (by norm_num)
    (by norm_num) (by norm_num)

/-- C6: crew size and base hours follow the bedroom tiering (≤1 → 2 movers /
4.0 h; =2 → 3 / 6.0; =3 → 4 / 8.0; ≥4 → 4 / 10.0); movers is always one of
{2, 3, 4}; the function is total, and any bedrooms count above the tiers
(e.g. > 6) degenerates to the largest tier. -/
theorem crew_tiering (b so sd hi : ℤ) (d : ℚ) (p : Bool) :
    (b ≤ 1 → moversOf b = 2 ∧ baseHours b = 4)
    ∧ (b = 2 → moversOf b = 3 ∧ baseHours b = 6)
    ∧ (b = 3 → moversOf b = 4 ∧ baseHours b = 8)
    ∧ (4 ≤ b → moversOf b = 4 ∧ baseHours b = 10)
    ∧ (moversOf b = 2 ∨ moversOf b = 3 ∨ moversOf b = 4)
    ∧ (compute_estimate b so sd hi d p).movers = moversOf b := by
  unfold moversOf baseHours
  refine ⟨fun h => ?_, fun h => ?_, fun h => ?_, fun h => ?_, ?_, rfl⟩ <;>
    split_ifs <;>
    first | exact ⟨rfl, rfl⟩ | omega

/-- C6 witness: tier instances at bedrooms = 1, 2, 3 and 7 (a value above the
expected range, degenerating to the largest tier). -/
theorem crew_tiering_witness :
    (moversOf 1 = 2 ∧ baseHours 1 = 4)
    ∧ (moversOf 2 = 3 ∧ baseHours 2 = 6)
    ∧ (moversOf 3 = 4 ∧ baseHours 3 = 8)
    ∧ (moversOf 7 = 4 ∧ baseHours 7 = 10)
    ∧ (compute_estimate 7 0 0 0 0 false).movers = moversOf 7 :=
  ⟨(crew_tiering 1 0 0 0 0 false).1 (by norm_num),
   (crew_tiering 2 0 0 0 0 false).2.1 rfl,
   (crew_tiering 3 0 0 0 0 false).2.2.1 rfl,
   (crew_tiering 7 0 0 0 0 false).2.2.2.1 (by norm_num),
   (crew_tiering 7 0 0 0 0 false).2.2.2.2.2⟩

/-- C9: `compute_estimate` is deterministic and pure: two calls on identical
inputs return identical `(movers, hours, cost)` triples; the embedding is a
total function of the arguments alone, with no other state. -/
theorem compute_estimate_deterministic (b b' so so' sd sd' hi hi' : ℤ)
    (d d' : ℚ) (p p' : Bool)
    (hb : b = b') (hso : so = so') (hsd : sd = sd') (hhi : hi = hi')
    (hd : d = d') (hp : p = p') :
    compute_estimate b so sd hi d p = compute_estimate b' so' sd' hi' d' p' := by
  subst hb hso hsd hhi hd hp; rfl

/-- C9 witness: two identical calls at a concrete input. -/
theorem compute_estimate_deterministic_witness :
    compute_estimate 3 1 1 2 150 true = compute_estimate 3 1 1 2 150 true :=
  compute_estimate_deterministic 3 3 1 1 1 1 2 2 150 150 true true
    rfl rfl rfl rfl rfl rfl

/-! ## Claims about the booking handler -/

/-- C7: the peak flag is true iff the submitted move date parses as
`YYYY-MM-DD` with month 6, 7 or 8; a missing, empty or unparsable date gives
a false flag, and whenever the numeric fields parse the request still
succeeds: it redirects to the confirmation page and stores the estimate
computed with the derived peak flag. -/
theorem booking_peak_season_flag (s : String) (sess : SessionState) (form : BookingForm)
    (b so sd hi : ℤ) (dk : ℚ)
    (hb : pyInt (form.bedrooms.getD "1") = some b)
    (hso : pyInt (form.stairs_origin.getD "0") = some so)
    (hsd : pyInt (form.stairs_destination.getD "0") = some sd)
    (hhi : pyInt (form.heavy_items.getD "0") = some hi)
    (hdk : pyFloat (form.distance_km.getD "0") = some dk) :
    (peak_of_move_date s = true
      ↔ ∃ dt, parse_move_date s = some dt ∧ (dt.month = 6 ∨ dt.month = 7 ∨ dt.month = 8))
    ∧ (booking_post sess form).2 = BookingResponse.redirectConfirmation
    ∧ (booking_post sess form).1.estimate
        = some ⟨(compute_estimate b so sd hi dk
              (peak_of_move_date (form.move_date.getD ""))).movers,
            (compute_estimate b so sd hi dk
              (peak_of_move_date (form.move_date.getD ""))).hours,
            (compute_estimate b so sd hi dk
              (peak_of_move_date (form.move_date.getD ""))).cost,
            b, so, sd, hi, dk, peak_of_move_date (form.move_date.getD "")⟩ := by
  refine ⟨?_, ?_, ?_⟩
  · unfold peak_of_move_date
    split_ifs with hemp
    · subst hemp
      have hnone : parse_move_date "" = none := rfl
      simp [hnone]
    · cases hpd : parse_move_date s with
      | none => simp
      | some dt => simp [or_assoc]
  · simp only [booking_post, hb, hso, hsd, hhi, hdk]
  · simp only [booking_post, hb, hso, hsd, hhi, hdk]

/-- C7 witness: a July date together with a fully numeric submission. -/
theorem booking_peak_season_flag_witness :
    (peak_of_move_date "2026-07-15" = true
      ↔ ∃ dt, parse_move_date "2026-07-15" = some dt
          ∧ (dt.month = 6 ∨ dt.month = 7 ∨ dt.month = 8))
    ∧ (booking_post sess0 goodForm).2 = BookingResponse.redirectConfirmation
    ∧ (booking_post sess0 goodForm).1.estimate
        = some ⟨(compute_estimate 2 0 0 0 50
              (peak_of_move_date (goodForm.move_date.getD ""))).movers,
            (compute_estimate 2 0 0 0 50
              (peak_of_move_date (goodForm.move_date.getD ""))).hours,
            (compute_estimate 2 0 0 0 50
              (peak_of_move_date (goodForm.move_date.getD ""))).cost,
            2, 0, 0, 0, 50, peak_of_move_date (goodForm.move_date.getD "")⟩ :=
  booking_peak_season_flag "2026-07-15" sess0 goodForm 2 0 0 0 50
    rfl rfl rfl rfl (by
      have hp : pyFloatParts (goodForm.distance_km.getD "0") = some (50, 0, 0) := rfl
      simp only [pyFloat, hp, Option.map_some']
      norm_num)

/-- C8: whenever any numeric form field fails to parse, the handler stores no
estimate, flashes the corrective prompt, and redirects back to the booking
form; the error is locally recoverable, never fatal. -/
theorem booking_parse_failure_recoverable (sess : SessionState) (form : BookingForm)
    (h : pyInt (form.bedrooms.getD "1") = none
       ∨ pyInt (form.stairs_origin.getD "0") = none
       ∨ pyInt (form.stairs_destination.getD "0") = none
       ∨ pyInt (form.heavy_items.getD "0") = none
       ∨ pyFloat (form.distance_km.getD "0") = none) :
    (booking_post sess form).1.estimate = sess.estimate
    ∧ (booking_post sess form).2 = BookingResponse.flashRedirectBooking
        "Please provide valid numbers for bedrooms, stairs, heavy items and distance." := by
  cases h1 : pyInt (form.bedrooms.getD "1") <;>
    cases h2 : pyInt (form.stairs_origin.getD "0") <;>
      cases h3 : pyInt (form.stairs_destination.getD "0") <;>
        cases h4 : pyInt (form.heavy_items.getD "0") <;>
          cases h5 : pyFloat (form.distance_km.getD "0") <;>
            simp_all [booking_post]

/-- C8 witness: a submission whose bedrooms field reads `"three"`. -/
theorem booking_parse_failure_recoverable_witness :
    (booking_post sess0 badForm).1.estimate = sess0.estimate
    ∧ (booking_post sess0 badForm).2 = BookingResponse.flashRedirectBooking
        "Please provide valid numbers for bedrooms, stairs, heavy items and distance." :=
  booking_parse_failure_recoverable sess0 badForm (Or.inl rfl)

/-- C10: a failed submission is not atomic over the session: on any numeric
parse failure the resulting session has the contact keys already overwritten
with the submitted values, while `estimate` and `inventory_data` keep their
previous values. -/
theorem booking_parse_failure_session_overwrite (sess : SessionState) (form : BookingForm)
    (h : pyInt (form.bedrooms.getD "1") = none
       ∨ pyInt (form.stairs_origin.getD "0") = none
       ∨ pyInt (form.stairs_destination.getD "0") = none
       ∨ pyInt (form.heavy_items.getD "0") = none
       ∨ pyFloat (form.distance_km.getD "0") = none) :
    (booking_post sess form).1
      = { sess with
          name := form.name.getD "", email := form.email.getD "",
          phone := form.phone.getD "", move_date := form.move_date.getD "",
          origin := form.origin.getD "", destination := form.destination.getD "",
          notes := form.notes.getD "" } := by
  cases h1 : pyInt (form.bedrooms.getD "1") <;>
    cases h2 : pyInt (form.stairs_origin.getD "0") <;>
      cases h3 : pyInt (form.stairs_destination.getD "0") <;>
        cases h4 : pyInt (form.heavy_items.getD "0") <;>
          cases h5 : pyFloat (form.distance_km.getD "0") <;>
            simp_all [booking_post]

/-- C10 witness: a prior session with stored inventory and estimate, and a
resubmission whose bedrooms field reads `"three"`: contact keys are
overwritten, `inventory_data` and `estimate` survive. -/
theorem booking_parse_failure_session_overwrite_witness :
    (booking_post sessPrior badForm).1
      = { sessPrior with
          name := "Ada", email := "ada@example.com", phone := "555",
          move_date := "2026-07-15", origin := "A", destination := "B",
          notes := "" } :=
  booking_parse_failure_session_overwrite sessPrior badForm (Or.inl rfl)

end MFTNB
